import Mathlib

/-!
Shallow embedding of the ClimaWell backend (src/backend/app.py) and proofs
of the specification claims about it.

Modelling conventions:
- Python floats are modelled as rationals (ℚ); timestamps are rationals
  measured in seconds, so `(datetime.now() - last_update).total_seconds()`
  becomes `now - ts`.
- The Flask handlers become pure functions from their inputs (request body,
  global sensor state, current clock, forecast payload, loaded model) to an
  explicit result. Handlers that mutate the global sensor state return the
  new state alongside the HTTP result.
- Error responses `jsonify({'error': ...}), code` become `Except.error`
  carrying the HTTP status code and the message (for messages produced by
  `str(e)` on a Python KeyError/IndexError we keep the key name / the
  standard IndexError text, dropping Python's repr quoting).
- The scikit-learn model is opaque in the source (a pickled artifact), so it
  is a parameter: a pair of functions `predict` / `predict_proba` on the
  feature list. `model.predict([features])[0]` is modelled as applying
  `predict` to the single feature vector.
- The Open-Meteo HTTP response is a parameter as well: `Option Daily`, where
  `none` models a JSON payload without a `daily` key and each field of
  `Daily` is the list the provider returns (the code indexes `[0]`).
- `predict_with_sensor` and `predict` additionally report, through the
  `Outcome` record, whether the forecast fetch was reached and which feature
  vector (if any) was handed to the classifier; these mirror the position of
  `requests.get` and `model.predict` in the handler's control flow.
-/

namespace ClimaWell

/-- HTTP-level error result: status code plus message. -/
structure ApiError where
  code : Nat
  message : String
  deriving DecidableEq, Repr

/-- Sensor liveness status, app.py line 43 / 70 / 92. -/
inductive SensorStatus where
  | connected
  | disconnected
  deriving DecidableEq, Repr

/-- The global `latest_sensor_data` dict, app.py lines 40-44. -/
structure SensorState where
  temperature : Option ℚ
  timestamp : Option ℚ
  status : SensorStatus
  deriving DecidableEq, Repr

/-- Initial sensor state at process start, app.py lines 40-44. -/
def initialSensorState : SensorState :=
  { temperature := none, timestamp := none, status := SensorStatus.disconnected }

/-- Successful body of the ingest endpoint, app.py lines 74-78. -/
structure IngestResponse where
  temperature : ℚ
  received_at : ℚ
  deriving DecidableEq, Repr

/-- `receive_sensor_data` (POST /sensor/temperature), app.py lines 56-82:
`temperature` is `data.get('temperature')` (`none` when the field is
missing), `now` is `datetime.now()`. Returns the new global state and the
HTTP result. -/
def receiveSensorData (s : SensorState) (temperature : Option ℚ) (now : ℚ) :
    SensorState × Except ApiError IngestResponse :=
  match temperature with
  | none => (s, Except.error { code := 400, message := "No temperature data" })
  | some t =>
      ({ temperature := some t, timestamp := some now, status := SensorStatus.connected },
       Except.ok { temperature := t, received_at := now })

/-- `get_sensor_data` (GET /sensor/temperature), app.py lines 84-94: the
staleness check mutates the stored status in place and the (possibly
updated) state is returned as the response body. -/
def getSensorData (s : SensorState) (now : ℚ) : SensorState :=
  match s.timestamp with
  | none => s
  | some ts =>
      if now - ts > 10 then { s with status := SensorStatus.disconnected } else s

/-- `RISK_LABELS = {0: 'Low', 1: 'Medium', 2: 'High'}`, app.py line 37,
as a partial lookup: indexing with a key outside the dict is a Python
KeyError (`none` here). -/
def RISK_LABELS (code : Nat) : Option String :=
  if code = 0 then some "Low"
  else if code = 1 then some "Medium"
  else if code = 2 then some "High"
  else none

/-- `get_recommendations`, app.py lines 208-229: static table, `.get` with
default `[]` for unknown labels. -/
def get_recommendations (risk_level : String) : List String :=
  if risk_level = "Low" then
    ["Conditions are safe for outdoor activities",
     "Stay hydrated with regular water intake",
     "Normal precautions are sufficient"]
  else if risk_level = "Medium" then
    ["Stay hydrated - drink water every 30-45 minutes",
     "Limit outdoor activities during peak afternoon hours",
     "Wear light, loose-fitting clothing",
     "Take frequent breaks in shaded areas"]
  else if risk_level = "High" then
    ["Stay indoors as much as possible",
     "Drink water every 20-30 minutes",
     "Avoid ALL outdoor activities between 11 AM - 5 PM",
     "Seek air-conditioned environments",
     "Know heatstroke symptoms: confusion, dizziness, nausea"]
  else []

/-- The pickled scikit-learn classifier, opaque in the source (app.py lines
30-35): `predict` and `predict_proba` on a single feature vector
(`model.predict([features])[0]` / `model.predict_proba([features])[0]`). -/
structure MLModel where
  predict : List ℚ → Nat
  predict_proba : List ℚ → List ℚ

/-- The `daily` object of the Open-Meteo JSON payload, app.py line 126:
each requested daily variable is a list (the code reads index `[0]`). -/
structure Daily where
  temperature_2m_max : List ℚ
  temperature_2m_min : List ℚ
  wind_speed_10m_max : List ℚ
  wind_gusts_10m_max : List ℚ
  precipitation_sum : List ℚ
  deriving DecidableEq, Repr

/-- `xs[0]` on a Python list: IndexError when empty, caught by the blanket
`except Exception` handler and surfaced as a 500. -/
def headE (xs : List ℚ) : Except ApiError ℚ :=
  match xs with
  | [] => Except.error { code := 500, message := "list index out of range" }
  | x :: _ => Except.ok x

/-- Body of POST /predict-with-sensor, app.py lines 105-108: `latitude` and
`longitude` via `data.get` (`none` when absent), `use_sensor` via
`data.get('use_sensor', False)`. -/
structure PWSBody where
  latitude : Option ℚ
  longitude : Option ℚ
  use_sensor : Bool
  deriving DecidableEq, Repr

/-- Python falsiness of an optional number, for `if not latitude or not
longitude` (app.py line 110): `None` and `0` are falsy. -/
def falsy (v : Option ℚ) : Bool :=
  match v with
  | none => true
  | some x => x == 0

/-- The feature values extracted in app.py lines 128-143 together with the
chosen `data_source`. -/
structure Assembled where
  temp_max : ℚ
  temp_min : ℚ
  wind_speed : ℚ
  wind_gust : ℚ
  precip : ℚ
  data_source : String
  deriving DecidableEq, Repr

/-- The `features` list of app.py lines 137-143, in source order. -/
def Assembled.features (a : Assembled) : List ℚ :=
  [a.temp_max, a.temp_min, a.wind_speed, a.wind_gust, a.precip]

/-- app.py lines 128-134: sensor temperature is substituted for the
forecast max iff `use_sensor` is truthy and the stored temperature is not
`None`; otherwise `daily['temperature_2m_max'][0]` is read. -/
def chooseTempMax (sensor : SensorState) (use_sensor : Bool) (daily : Daily) :
    Except ApiError (ℚ × String) :=
  match use_sensor, sensor.temperature with
  | true, some t => Except.ok (t, "sensor")
  | _, _ =>
      match headE daily.temperature_2m_max with
      | Except.error e => Except.error e
      | Except.ok x => Except.ok (x, "open-meteo")

/-- app.py lines 128-143: pick `temp_max`, then read the other four daily
values at index 0, in source order. -/
def assembleFeatures (sensor : SensorState) (use_sensor : Bool) (daily : Daily) :
    Except ApiError Assembled :=
  match chooseTempMax sensor use_sensor daily with
  | Except.error e => Except.error e
  | Except.ok (tm, ds) =>
      match headE daily.temperature_2m_min with
      | Except.error e => Except.error e
      | Except.ok tmin =>
          match headE daily.wind_speed_10m_max with
          | Except.error e => Except.error e
          | Except.ok ws =>
              match headE daily.wind_gusts_10m_max with
              | Except.error e => Except.error e
              | Except.ok wg =>
                  match headE daily.precipitation_sum with
                  | Except.error e => Except.error e
                  | Except.ok ps =>
                      Except.ok { temp_max := tm, temp_min := tmin, wind_speed := ws,
                                  wind_gust := wg, precip := ps, data_source := ds }

/-- The classification step shared by both predict handlers (app.py lines
145-146 / 191-192 and the `risk`/`confidence` entries of the responses):
`RISK_LABELS[prediction]` raises KeyError for a class outside 0..2 and
`probabilities[i]` raises IndexError when too short; both land in the
blanket 500 handler. -/
def classifyFeatures (m : MLModel) (features : List ℚ) :
    Except ApiError (String × Nat × ℚ × ℚ × ℚ) :=
  match RISK_LABELS (m.predict features) with
  | none => Except.error { code := 500, message := toString (m.predict features) }
  | some risk =>
      match (m.predict_proba features).get? 0, (m.predict_proba features).get? 1,
          (m.predict_proba features).get? 2 with
      | some p0, some p1, some p2 => Except.ok (risk, m.predict features, p0, p1, p2)
      | _, _, _ => Except.error { code := 500, message := "index out of range" }

/-- Success body of POST /predict-with-sensor, app.py lines 148-167. -/
structure SensorPredictResponse where
  risk : String
  risk_code : Nat
  confidence_low : ℚ
  confidence_medium : ℚ
  confidence_high : ℚ
  features_used_temperature_max : ℚ
  features_used_temperature_min : ℚ
  features_used_wind_speed_max : ℚ
  features_used_wind_gusts_max : ℚ
  features_used_precipitation : ℚ
  data_source : String
  sensor_status : SensorStatus
  sensor_note : Option String
  recommendations : List String
  deriving DecidableEq, Repr

/-- Outcome of a predict handler: the HTTP result, whether the handler
reached the forecast fetch (`requests.get`, app.py line 123), and the
feature vector handed to `model.predict` when classification was reached
(app.py line 145 / 191). -/
structure Outcome (ρ : Type) where
  result : Except ApiError ρ
  fetchedForecast : Bool
  classifiedOn : Option (List ℚ)

/-- Response construction of app.py lines 148-167 (after a successful
feature assembly). `sensor_status` echoes the stored status without any
staleness recomputation; `sensor_note` is the fixed advisory string iff
`use_sensor` is falsy. -/
def buildSensorResponse (m : MLModel) (sensor : SensorState) (use_sensor : Bool)
    (a : Assembled) : Except ApiError SensorPredictResponse :=
  match classifyFeatures m a.features with
  | Except.error e => Except.error e
  | Except.ok (risk, prediction, p0, p1, p2) =>
      Except.ok
        { risk := risk
          risk_code := prediction
          confidence_low := p0
          confidence_medium := p1
          confidence_high := p2
          features_used_temperature_max := a.temp_max
          features_used_temperature_min := a.temp_min
          features_used_wind_speed_max := a.wind_speed
          features_used_wind_gusts_max := a.wind_gust
          features_used_precipitation := a.precip
          data_source := a.data_source
          sensor_status := sensor.status
          sensor_note :=
            if use_sensor then none
            else some "Hardware functionality not yet implemented"
          recommendations := get_recommendations risk }

/-- `predict_with_sensor` (POST /predict-with-sensor), app.py lines 96-171.
`model?` is the global `model` (`none` when loading failed), `meteo` the
parsed Open-Meteo payload (`none` models a payload without a `daily` key,
whose KeyError the blanket handler turns into a 500). -/
def predictWithSensor (model? : Option MLModel) (sensor : SensorState)
    (body : PWSBody) (meteo : Option Daily) : Outcome SensorPredictResponse :=
  match model? with
  | none =>
      { result := Except.error { code := 500, message := "Model not loaded" },
        fetchedForecast := false, classifiedOn := none }
  | some m =>
      if falsy body.latitude || falsy body.longitude then
        { result := Except.error { code := 400, message := "Latitude and longitude required" },
          fetchedForecast := false, classifiedOn := none }
      else
        match meteo with
        | none =>
            { result := Except.error { code := 500, message := "daily" },
              fetchedForecast := true, classifiedOn := none }
        | some daily =>
            match assembleFeatures sensor body.use_sensor daily with
            | Except.error e =>
                { result := Except.error e, fetchedForecast := true, classifiedOn := none }
            | Except.ok a =>
                { result := buildSensorResponse m sensor body.use_sensor a,
                  fetchedForecast := true, classifiedOn := some a.features }

/-- Body of POST /predict, app.py lines 182-189: each field is present or
absent (`data['k']` raises KeyError on an absent key). -/
structure DirectBody where
  temperature_2m_max : Option ℚ
  temperature_2m_min : Option ℚ
  wind_speed_10m_max : Option ℚ
  wind_gusts_10m_max : Option ℚ
  precipitation_sum : Option ℚ
  deriving DecidableEq, Repr

/-- `data[name]`: KeyError on a missing key, caught by the blanket handler
and surfaced as a 500 whose message is the missing key. -/
def reqField (name : String) (v : Option ℚ) : Except ApiError ℚ :=
  match v with
  | none => Except.error { code := 500, message := name }
  | some x => Except.ok x

/-- The `features` list of app.py lines 183-189: the five keys are read in
source order, so the first missing one raises. -/
def directFeatures (body : DirectBody) : Except ApiError (List ℚ) :=
  match reqField "temperature_2m_max" body.temperature_2m_max with
  | Except.error e => Except.error e
  | Except.ok a =>
      match reqField "temperature_2m_min" body.temperature_2m_min with
      | Except.error e => Except.error e
      | Except.ok b =>
          match reqField "wind_speed_10m_max" body.wind_speed_10m_max with
          | Except.error e => Except.error e
          | Except.ok c =>
              match reqField "wind_gusts_10m_max" body.wind_gusts_10m_max with
              | Except.error e => Except.error e
              | Except.ok d =>
                  match reqField "precipitation_sum" body.precipitation_sum with
                  | Except.error e => Except.error e
                  | Except.ok f => Except.ok [a, b, c, d, f]

/-- Success body of POST /predict, app.py lines 194-203. -/
structure DirectResponse where
  risk : String
  risk_code : Nat
  confidence_low : ℚ
  confidence_medium : ℚ
  confidence_high : ℚ
  recommendations : List String
  deriving DecidableEq, Repr

/-- Response construction of app.py lines 194-203. -/
def buildDirectResponse (m : MLModel) (features : List ℚ) :
    Except ApiError DirectResponse :=
  match classifyFeatures m features with
  | Except.error e => Except.error e
  | Except.ok (risk, prediction, p0, p1, p2) =>
      Except.ok
        { risk := risk
          risk_code := prediction
          confidence_low := p0
          confidence_medium := p1
          confidence_high := p2
          recommendations := get_recommendations risk }

/-- `predict` (POST /predict), app.py lines 173-206. -/
def predictDirect (model? : Option MLModel) (body : DirectBody) :
    Outcome DirectResponse :=
  match model? with
  | none =>
      { result := Except.error { code := 500, message := "Model not loaded" },
        fetchedForecast := false, classifiedOn := none }
  | some m =>
      match directFeatures body with
      | Except.error e =>
          { result := Except.error e, fetchedForecast := false, classifiedOn := none }
      | Except.ok features =>
          { result := buildDirectResponse m features,
            fetchedForecast := false, classifiedOn := some features }

/-! ## Concrete sample inputs, used by the witness and counterexample
theorems -/

/-- A concrete classifier satisfying the model contract: every feature
vector is class 0 with distribution `[1, 0, 0]`. -/
def sampleModel : MLModel :=
  { predict := fun _ => 0, predict_proba := fun _ => [1, 0, 0] }

/-- A concrete one-day forecast payload: max 35, min 24, wind 10, gusts 15,
precipitation 0. -/
def sampleDaily : Daily := ⟨[35], [24], [10], [15], [0]⟩

/-- A sensor state holding temperature 42 read at time 0, already marked
disconnected (stale). -/
def staleSensor : SensorState :=
  ⟨some 42, some 0, SensorStatus.disconnected⟩

/-- Coordinate-mode body requesting the sensor substitution. -/
def sensorBody : PWSBody := ⟨some 1, some 1, true⟩

/-- Coordinate-mode body with `use_sensor` false. -/
def forecastBody : PWSBody := ⟨some 1, some 1, false⟩

/-- The response `predict_with_sensor` produces for `sampleModel`,
`staleSensor`, `sensorBody`, `sampleDaily`. -/
def sensorCaseResp : SensorPredictResponse :=
  SensorPredictResponse.mk "Low" 0 1 0 0 42 24 10 15 0 "sensor"
    SensorStatus.disconnected none (get_recommendations "Low")

/-- The response `predict_with_sensor` produces for `sampleModel`,
`initialSensorState`, `forecastBody`, `sampleDaily`. -/
def forecastCaseResp : SensorPredictResponse :=
  SensorPredictResponse.mk "Low" 0 1 0 0 35 24 10 15 0 "open-meteo"
    SensorStatus.disconnected (some "Hardware functionality not yet implemented")
    (get_recommendations "Low")

/-- The response `predict` produces for `sampleModel` on a complete
direct-feature body. -/
def directCaseResp : DirectResponse :=
  DirectResponse.mk "Low" 0 1 0 0 (get_recommendations "Low")

/-! ## Helper lemmas (inversion of the handler pipelines) -/

theorem headE_ok {xs : List ℚ} {v : ℚ} (h : headE xs = Except.ok v) :
    xs.get? 0 = some v := by
  cases xs with
  | nil => exact Except.noConfusion h
  | cons x t =>
      simp only [headE, Except.ok.injEq] at h
      simp [h]

theorem chooseTempMax_sensor {sensor : SensorState} (daily : Daily) {T : ℚ}
    (ht : sensor.temperature = some T) :
    chooseTempMax sensor true daily = Except.ok (T, "sensor") := by
  simp [chooseTempMax, ht]

theorem chooseTempMax_forecast {sensor : SensorState} {daily : Daily} {us : Bool}
    (h : us = false ∨ sensor.temperature = none) {p : ℚ × String}
    (hc : chooseTempMax sensor us daily = Except.ok p) :
    daily.temperature_2m_max.get? 0 = some p.1 ∧ p.2 = "open-meteo" := by
  have hd : chooseTempMax sensor us daily =
      (match headE daily.temperature_2m_max with
       | Except.error e => Except.error e
       | Except.ok x => Except.ok (x, "open-meteo")) := by
    rcases h with h | h
    · subst h
      cases sensor.temperature <;> rfl
    · cases us <;> simp [chooseTempMax, h]
  rw [hd] at hc
  cases he : headE daily.temperature_2m_max with
  | error e => rw [he] at hc; exact Except.noConfusion hc
  | ok x =>
      rw [he] at hc
      simp only [Except.ok.injEq] at hc
      subst hc
      exact ⟨headE_ok he, rfl⟩

theorem assembleFeatures_ok {sensor : SensorState} {us : Bool} {daily : Daily}
    {a : Assembled} (h : assembleFeatures sensor us daily = Except.ok a) :
    chooseTempMax sensor us daily = Except.ok (a.temp_max, a.data_source) ∧
    daily.temperature_2m_min.get? 0 = some a.temp_min ∧
    daily.wind_speed_10m_max.get? 0 = some a.wind_speed ∧
    daily.wind_gusts_10m_max.get? 0 = some a.wind_gust ∧
    daily.precipitation_sum.get? 0 = some a.precip := by
  unfold assembleFeatures at h
  cases hc : chooseTempMax sensor us daily with
  | error e => rw [hc] at h; exact Except.noConfusion h
  | ok p =>
      obtain ⟨tm, ds⟩ := p
      rw [hc] at h
      cases h1 : headE daily.temperature_2m_min with
      | error e => rw [h1] at h; exact Except.noConfusion h
      | ok tmin =>
          rw [h1] at h
          cases h2 : headE daily.wind_speed_10m_max with
          | error e => rw [h2] at h; exact Except.noConfusion h
          | ok ws =>
              rw [h2] at h
              cases h3 : headE daily.wind_gusts_10m_max with
              | error e => rw [h3] at h; exact Except.noConfusion h
              | ok wg =>
                  rw [h3] at h
                  cases h4 : headE daily.precipitation_sum with
                  | error e => rw [h4] at h; exact Except.noConfusion h
                  | ok ps =>
                      rw [h4] at h
                      simp only [Except.ok.injEq] at h
                      subst h
                      exact ⟨rfl, headE_ok h1, headE_ok h2, headE_ok h3, headE_ok h4⟩

theorem classifyFeatures_ok {m : MLModel} {fs : List ℚ}
    {r : String × Nat × ℚ × ℚ × ℚ} (h : classifyFeatures m fs = Except.ok r) :
    RISK_LABELS r.2.1 = some r.1 ∧ r.2.1 = m.predict fs ∧
    (m.predict_proba fs).get? 0 = some r.2.2.1 ∧
    (m.predict_proba fs).get? 1 = some r.2.2.2.1 ∧
    (m.predict_proba fs).get? 2 = some r.2.2.2.2 := by
  unfold classifyFeatures at h
  cases hr : RISK_LABELS (m.predict fs) with
  | none => rw [hr] at h; exact Except.noConfusion h
  | some risk =>
      rw [hr] at h
      cases h0 : (m.predict_proba fs).get? 0 with
      | none => rw [h0] at h; simp at h
      | some p0 =>
          rw [h0] at h
          cases h1 : (m.predict_proba fs).get? 1 with
          | none => rw [h1] at h; simp at h
          | some p1 =>
              rw [h1] at h
              cases h2 : (m.predict_proba fs).get? 2 with
              | none => rw [h2] at h; simp at h
              | some p2 =>
                  rw [h2] at h
                  simp only [Except.ok.injEq] at h
                  subst h
                  exact ⟨hr, rfl, rfl, rfl, rfl⟩

theorem buildSensorResponse_ok {m : MLModel} {sensor : SensorState} {us : Bool}
    {a : Assembled} {resp : SensorPredictResponse}
    (h : buildSensorResponse m sensor us a = Except.ok resp) :
    resp.features_used_temperature_max = a.temp_max ∧
    resp.features_used_temperature_min = a.temp_min ∧
    resp.features_used_wind_speed_max = a.wind_speed ∧
    resp.features_used_wind_gusts_max = a.wind_gust ∧
    resp.features_used_precipitation = a.precip ∧
    resp.data_source = a.data_source ∧
    RISK_LABELS resp.risk_code = some resp.risk ∧
    resp.risk_code = m.predict a.features ∧
    (m.predict_proba a.features).get? 0 = some resp.confidence_low ∧
    (m.predict_proba a.features).get? 1 = some resp.confidence_medium ∧
    (m.predict_proba a.features).get? 2 = some resp.confidence_high ∧
    resp.recommendations = get_recommendations resp.risk := by
  unfold buildSensorResponse at h
  cases hc : classifyFeatures m a.features with
  | error e => rw [hc] at h; exact Except.noConfusion h
  | ok r =>
      obtain ⟨risk, pred, p0, p1, p2⟩ := r
      rw [hc] at h
      simp only [Except.ok.injEq] at h
      subst h
      have hcf := classifyFeatures_ok hc
      exact ⟨rfl, rfl, rfl, rfl, rfl, rfl, hcf.1, hcf.2.1, hcf.2.2.1,
        hcf.2.2.2.1, hcf.2.2.2.2, rfl⟩

theorem buildDirectResponse_ok {m : MLModel} {fs : List ℚ}
    {resp : DirectResponse} (h : buildDirectResponse m fs = Except.ok resp) :
    RISK_LABELS resp.risk_code = some resp.risk ∧
    resp.risk_code = m.predict fs ∧
    (m.predict_proba fs).get? 0 = some resp.confidence_low ∧
    (m.predict_proba fs).get? 1 = some resp.confidence_medium ∧
    (m.predict_proba fs).get? 2 = some resp.confidence_high ∧
    resp.recommendations = get_recommendations resp.risk := by
  unfold buildDirectResponse at h
  cases hc : classifyFeatures m fs with
  | error e => rw [hc] at h; exact Except.noConfusion h
  | ok r =>
      obtain ⟨risk, pred, p0, p1, p2⟩ := r
      rw [hc] at h
      simp only [Except.ok.injEq] at h
      subst h
      have hcf := classifyFeatures_ok hc
      exact ⟨hcf.1, hcf.2.1, hcf.2.2.1, hcf.2.2.2.1, hcf.2.2.2.2, rfl⟩

theorem predictWithSensor_ok {m : MLModel} {sensor : SensorState} {body : PWSBody}
    {meteo : Option Daily} {resp : SensorPredictResponse}
    (h : (predictWithSensor (some m) sensor body meteo).result = Except.ok resp) :
    ∃ daily a, meteo = some daily ∧
      assembleFeatures sensor body.use_sensor daily = Except.ok a ∧
      buildSensorResponse m sensor body.use_sensor a = Except.ok resp ∧
      (predictWithSensor (some m) sensor body meteo).classifiedOn = some a.features := by
  cases hf : falsy body.latitude || falsy body.longitude with
  | true =>
      exfalso
      simp [predictWithSensor, hf] at h
  | false =>
      cases meteo with
      | none =>
          exfalso
          simp [predictWithSensor, hf] at h
      | some daily =>
          cases ha : assembleFeatures sensor body.use_sensor daily with
          | error e =>
              exfalso
              simp [predictWithSensor, hf, ha] at h
          | ok a =>
              refine ⟨daily, a, rfl, ha, ?_, ?_⟩
              · simpa [predictWithSensor, hf, ha] using h
              · simp [predictWithSensor, hf, ha]

theorem predictDirect_ok {m : MLModel} {body : DirectBody} {resp : DirectResponse}
    (h : (predictDirect (some m) body).result = Except.ok resp) :
    ∃ fs, directFeatures body = Except.ok fs ∧
      buildDirectResponse m fs = Except.ok resp ∧
      (predictDirect (some m) body).classifiedOn = some fs := by
  cases hd : directFeatures body with
  | error e =>
      exfalso
      simp [predictDirect, hd] at h
  | ok fs =>
      refine ⟨fs, rfl, ?_, ?_⟩
      · simpa [predictDirect, hd] using h
      · simp [predictDirect, hd]

/-! ## Claim theorems -/

/-- C1: after an ingest of temperature `T` at time `t0`, a read at `t1`
with `t1 - t0 ≤ 10` seconds (and no intervening ingest) reports
`status = connected` and `temperature = T`, and a read at `t1` with
`t1 - t0 > 10` reports `status = disconnected`; the status is derived at
read time from the stored reading and the clock. -/
theorem sensor_liveness (s : SensorState) (T t0 t1 : ℚ) :
    (t1 - t0 ≤ 10 →
      (getSensorData ((receiveSensorData s (some T) t0).1) t1).status = SensorStatus.connected ∧
      (getSensorData ((receiveSensorData s (some T) t0).1) t1).temperature = some T) ∧
    (t1 - t0 > 10 →
      (getSensorData ((receiveSensorData s (some T) t0).1) t1).status = SensorStatus.disconnected) := by
  constructor
  · intro h
    simp [receiveSensorData, getSensorData, not_lt.mpr h]
  · intro h
    simp [receiveSensorData, getSensorData, h]

/-- Witness for `sensor_liveness`: ingest 42 at time 0; a read at time 5 is
connected with temperature 42, a read at time 20 is disconnected. -/
theorem sensor_liveness_witness :
    ((getSensorData ((receiveSensorData initialSensorState (some 42) 0).1) 5).status =
        SensorStatus.connected ∧
      (getSensorData ((receiveSensorData initialSensorState (some 42) 0).1) 5).temperature =
        some 42) ∧
    (getSensorData ((receiveSensorData initialSensorState (some 42) 0).1) 20).status =
      SensorStatus.disconnected :=
  ⟨(sensor_liveness initialSensorState 42 0 5).1 (by norm_num),
   (sensor_liveness initialSensorState 42 0 20).2 (by norm_num)⟩

/-- C6: an ingest without a `temperature` field fails with a 400 client
error and leaves the sensor state unchanged; an ingest with a temperature
unconditionally overwrites the prior reading and sets the status to
connected. -/
theorem ingest_validation_and_overwrite (s : SensorState) (now : ℚ) :
    (receiveSensorData s none now).1 = s ∧
    (receiveSensorData s none now).2 =
      Except.error { code := 400, message := "No temperature data" } ∧
    ∀ t : ℚ,
      (receiveSensorData s (some t) now).1 =
        { temperature := some t, timestamp := some now, status := SensorStatus.connected } ∧
      (receiveSensorData s (some t) now).2 =
        Except.ok { temperature := t, received_at := now } :=
  ⟨rfl, rfl, fun _ => ⟨rfl, rfl⟩⟩

/-- C10: the sensor read never modifies the stored temperature or
timestamp; it either leaves the state unchanged or — only when a reading
exists and is stale — sets the status to disconnected; in particular it
never sets the status to connected unless it already was. -/
theorem sensor_read_frame (s : SensorState) (now : ℚ) :
    (getSensorData s now).temperature = s.temperature ∧
    (getSensorData s now).timestamp = s.timestamp ∧
    (getSensorData s now = s ∨
      ∃ ts, s.timestamp = some ts ∧ now - ts > 10 ∧
        getSensorData s now = { s with status := SensorStatus.disconnected }) ∧
    ((getSensorData s now).status = SensorStatus.connected →
      s.status = SensorStatus.connected) := by
  rcases hts : s.timestamp with _ | ts
  · simp [getSensorData, hts]
  · by_cases hc : now - ts > 10
    · refine ⟨?_, ?_, Or.inr ⟨ts, rfl, hc, ?_⟩, ?_⟩ <;>
        simp [getSensorData, hts, hc]
    · refine ⟨?_, ?_, Or.inl ?_, ?_⟩ <;>
        simp [getSensorData, hts, hc]

/-- Witness for `sensor_read_frame`: a fresh connected reading at time 0
read at time 5 stays connected, so the origin state was connected. -/
theorem sensor_read_frame_witness :
    (SensorState.mk (some 42) (some 0) SensorStatus.connected).status =
      SensorStatus.connected :=
  (sensor_read_frame (SensorState.mk (some 42) (some 0) SensorStatus.connected) 5).2.2.2
    (by norm_num [getSensorData])

/-- C7: when the model failed to load (`model = None`), both predict
handlers fail with the 500 `Model not loaded` error for every request,
without reaching the forecast fetch or the classifier, and return no
partial result. -/
theorem model_unavailable_fails_fast (sensor : SensorState) (body : PWSBody)
    (meteo : Option Daily) (dbody : DirectBody) :
    predictWithSensor none sensor body meteo =
      { result := Except.error { code := 500, message := "Model not loaded" },
        fetchedForecast := false, classifiedOn := none } ∧
    predictDirect none dbody =
      { result := Except.error { code := 500, message := "Model not loaded" },
        fetchedForecast := false, classifiedOn := none } :=
  ⟨rfl, rfl⟩

/-- C8: `get_recommendations` is a pure function returning the fixed
ordered advisory lists — 3 items for Low, 4 for Medium, 5 for High, all
verbatim — and the empty list for any other label. -/
theorem recommend_static_table :
    get_recommendations "Low" =
      ["Conditions are safe for outdoor activities",
       "Stay hydrated with regular water intake",
       "Normal precautions are sufficient"] ∧
    get_recommendations "Medium" =
      ["Stay hydrated - drink water every 30-45 minutes",
       "Limit outdoor activities during peak afternoon hours",
       "Wear light, loose-fitting clothing",
       "Take frequent breaks in shaded areas"] ∧
    get_recommendations "High" =
      ["Stay indoors as much as possible",
       "Drink water every 20-30 minutes",
       "Avoid ALL outdoor activities between 11 AM - 5 PM",
       "Seek air-conditioned environments",
       "Know heatstroke symptoms: confusion, dizziness, nausea"] ∧
    (get_recommendations "Low").length = 3 ∧
    (get_recommendations "Medium").length = 4 ∧
    (get_recommendations "High").length = 5 ∧
    ∀ s : String, s ≠ "Low" → s ≠ "Medium" → s ≠ "High" →
      get_recommendations s = [] := by
  refine ⟨rfl, rfl, rfl, rfl, rfl, rfl, ?_⟩
  intro s h1 h2 h3
  simp [get_recommendations, h1, h2, h3]

/-- Witness for `recommend_static_table`: the unknown label clause at the
concrete label `Unknown`. -/
theorem recommend_static_table_witness :
    get_recommendations "Unknown" = [] :=
  recommend_static_table.2.2.2.2.2.2 "Unknown" (by decide) (by decide) (by decide)

/-- C2: in coordinate mode, whenever `use_sensor` is true and the sensor
state holds a non-absent temperature `T`, every successful response uses
`T` as the `temperature_max` feature (in place of the forecast max) and
reports `data_source = "sensor"` — for an arbitrary sensor status, so the
substitution ignores liveness. -/
theorem pws_sensor_substitution (m : MLModel) (sensor : SensorState) (body : PWSBody)
    (meteo : Option Daily) (T : ℚ) (resp : SensorPredictResponse)
    (hu : body.use_sensor = true) (ht : sensor.temperature = some T)
    (h : (predictWithSensor (some m) sensor body meteo).result = Except.ok resp) :
    resp.data_source = "sensor" ∧
    resp.features_used_temperature_max = T ∧
    (predictWithSensor (some m) sensor body meteo).classifiedOn =
      some [T, resp.features_used_temperature_min, resp.features_used_wind_speed_max,
        resp.features_used_wind_gusts_max, resp.features_used_precipitation] := by
  obtain ⟨daily, a, hm, ha, hb, hcls⟩ := predictWithSensor_ok h
  obtain ⟨hctm, -, -, -, -⟩ := assembleFeatures_ok ha
  rw [hu] at hctm
  rw [chooseTempMax_sensor daily ht] at hctm
  simp only [Except.ok.injEq, Prod.mk.injEq] at hctm
  obtain ⟨hT, hds⟩ := hctm
  obtain ⟨f1, f2, f3, f4, f5, f6, -⟩ := buildSensorResponse_ok hb
  refine ⟨?_, ?_, ?_⟩
  · rw [f6, ← hds]
  · rw [f1, ← hT]
  · rw [hcls]
    simp only [Assembled.features]
    rw [f2, f3, f4, f5, hT]

/-- Witness for `pws_sensor_substitution`: a stale, disconnected sensor
reading of 42 is still substituted when `use_sensor` is true. -/
theorem pws_sensor_substitution_witness :
    (predictWithSensor (some sampleModel) staleSensor sensorBody (some sampleDaily)).result =
      Except.ok sensorCaseResp ∧
    (sensorCaseResp.data_source = "sensor" ∧
      sensorCaseResp.features_used_temperature_max = 42 ∧
      (predictWithSensor (some sampleModel) staleSensor sensorBody
          (some sampleDaily)).classifiedOn = some [42, 24, 10, 15, 0]) :=
  ⟨rfl,
   pws_sensor_substitution sampleModel staleSensor sensorBody (some sampleDaily) 42
     sensorCaseResp rfl rfl rfl⟩

/-- C3: in coordinate mode, whenever `use_sensor` is false or no sensor
reading was ever ingested, every successful response takes its
`temperature_max` feature from the forecast payload and reports the
forecast-provider data source, whose concrete tag in the code is the
string `open-meteo` (the spec names it `forecast-provider`). -/
theorem pws_forecast_source (m : MLModel) (sensor : SensorState) (body : PWSBody)
    (daily : Daily) (resp : SensorPredictResponse)
    (hns : body.use_sensor = false ∨ sensor.temperature = none)
    (h : (predictWithSensor (some m) sensor body (some daily)).result = Except.ok resp) :
    resp.data_source = "open-meteo" ∧
    daily.temperature_2m_max.get? 0 = some resp.features_used_temperature_max ∧
    (predictWithSensor (some m) sensor body (some daily)).classifiedOn =
      some [resp.features_used_temperature_max, resp.features_used_temperature_min,
        resp.features_used_wind_speed_max, resp.features_used_wind_gusts_max,
        resp.features_used_precipitation] := by
  obtain ⟨daily2, a, hm, ha, hb, hcls⟩ := predictWithSensor_ok h
  injection hm with hm'
  subst hm'
  obtain ⟨hctm, -, -, -, -⟩ := assembleFeatures_ok ha
  obtain ⟨hget, hds⟩ := chooseTempMax_forecast hns hctm
  obtain ⟨f1, f2, f3, f4, f5, f6, -⟩ := buildSensorResponse_ok hb
  refine ⟨?_, ?_, ?_⟩
  · rw [f6]; exact hds
  · rw [f1]; exact hget
  · rw [hcls]
    simp only [Assembled.features]
    rw [f1, f2, f3, f4, f5]

/-- Witness for `pws_forecast_source`: with no prior ingest and
`use_sensor` false the forecast max 35 is used and the data source is
`open-meteo`. -/
theorem pws_forecast_source_witness :
    (predictWithSensor (some sampleModel) initialSensorState forecastBody
        (some sampleDaily)).result = Except.ok forecastCaseResp ∧
    (forecastCaseResp.data_source = "open-meteo" ∧
      sampleDaily.temperature_2m_max.get? 0 =
        some forecastCaseResp.features_used_temperature_max ∧
      (predictWithSensor (some sampleModel) initialSensorState forecastBody
          (some sampleDaily)).classifiedOn = some [35, 24, 10, 15, 0]) :=
  ⟨rfl,
   pws_forecast_source sampleModel initialSensorState forecastBody sampleDaily
     forecastCaseResp (Or.inl rfl) rfl⟩

/-- C4: in both modes, the feature vector handed to the classifier is the
fixed-order 5-element list `[temperature_max, temperature_min,
wind_speed_max, wind_gust_max, precipitation_sum]`: in coordinate mode it
is exactly the `features_used` values of the response in that order, and
in direct mode it is exactly the five caller-supplied field values in that
order. -/
theorem feature_vector_order (m : MLModel) (sensor : SensorState) (body : PWSBody)
    (meteo : Option Daily) (resp : SensorPredictResponse) (dbody : DirectBody)
    (va vb vc vd ve : ℚ) :
    ((predictWithSensor (some m) sensor body meteo).result = Except.ok resp →
      (predictWithSensor (some m) sensor body meteo).classifiedOn =
        some [resp.features_used_temperature_max, resp.features_used_temperature_min,
          resp.features_used_wind_speed_max, resp.features_used_wind_gusts_max,
          resp.features_used_precipitation]) ∧
    (dbody = DirectBody.mk (some va) (some vb) (some vc) (some vd) (some ve) →
      (predictDirect (some m) dbody).classifiedOn = some [va, vb, vc, vd, ve]) := by
  constructor
  · intro h
    obtain ⟨daily, a, hm, ha, hb, hcls⟩ := predictWithSensor_ok h
    obtain ⟨f1, f2, f3, f4, f5, -⟩ := buildSensorResponse_ok hb
    rw [hcls]
    simp only [Assembled.features]
    rw [f1, f2, f3, f4, f5]
  · rintro rfl
    rfl

/-- Witness for `feature_vector_order`: both modes at concrete inputs. -/
theorem feature_vector_order_witness :
    (predictWithSensor (some sampleModel) staleSensor sensorBody
        (some sampleDaily)).classifiedOn =
      some [sensorCaseResp.features_used_temperature_max,
        sensorCaseResp.features_used_temperature_min,
        sensorCaseResp.features_used_wind_speed_max,
        sensorCaseResp.features_used_wind_gusts_max,
        sensorCaseResp.features_used_precipitation] ∧
    (predictDirect (some sampleModel)
        (DirectBody.mk (some 35) (some 24) (some 10) (some 15) (some 0))).classifiedOn =
      some [35, 24, 10, 15, 0] :=
  ⟨(feature_vector_order sampleModel staleSensor sensorBody (some sampleDaily)
      sensorCaseResp (DirectBody.mk (some 35) (some 24) (some 10) (some 15) (some 0))
      35 24 10 15 0).1 rfl,
   (feature_vector_order sampleModel staleSensor sensorBody (some sampleDaily)
      sensorCaseResp (DirectBody.mk (some 35) (some 24) (some 10) (some 15) (some 0))
      35 24 10 15 0).2 rfl⟩

/-- C5 counterexample: a direct-mode body missing `temperature_2m_min` and
`precipitation_sum` does not produce a client-facing 4xx `ValidationError`
listing the missing fields: the handler's blanket `except` turns the first
KeyError into a 500 server error naming only `temperature_2m_min` (and
never reaches `precipitation_sum`). -/
theorem direct_missing_fields_counterexample :
    (predictDirect (some sampleModel)
        (DirectBody.mk (some 35) none (some 10) (some 15) none)).result =
      Except.error { code := 500, message := "temperature_2m_min" } ∧
    ¬(400 ≤ 500 ∧ 500 < 500) :=
  ⟨rfl, by norm_num⟩

/-- C5 (amended): in direct-feature mode, a request missing at least one
of the five feature fields fails with a 500 server error (the blanket
exception handler, not a 4xx `ValidationError`) whose message names only
the first missing field in the fixed field order; when all five fields are
present they are passed through to the classifier unchanged. -/
theorem direct_field_validation (m : MLModel) (body : DirectBody) :
    (body.temperature_2m_max = none →
      (predictDirect (some m) body).result =
        Except.error { code := 500, message := "temperature_2m_max" }) ∧
    (∀ va, body.temperature_2m_max = some va → body.temperature_2m_min = none →
      (predictDirect (some m) body).result =
        Except.error { code := 500, message := "temperature_2m_min" }) ∧
    (∀ va vb, body.temperature_2m_max = some va → body.temperature_2m_min = some vb →
      body.wind_speed_10m_max = none →
      (predictDirect (some m) body).result =
        Except.error { code := 500, message := "wind_speed_10m_max" }) ∧
    (∀ va vb vc, body.temperature_2m_max = some va → body.temperature_2m_min = some vb →
      body.wind_speed_10m_max = some vc → body.wind_gusts_10m_max = none →
      (predictDirect (some m) body).result =
        Except.error { code := 500, message := "wind_gusts_10m_max" }) ∧
    (∀ va vb vc vd, body.temperature_2m_max = some va → body.temperature_2m_min = some vb →
      body.wind_speed_10m_max = some vc → body.wind_gusts_10m_max = some vd →
      body.precipitation_sum = none →
      (predictDirect (some m) body).result =
        Except.error { code := 500, message := "precipitation_sum" }) ∧
    (∀ va vb vc vd ve,
      body = DirectBody.mk (some va) (some vb) (some vc) (some vd) (some ve) →
      (predictDirect (some m) body).classifiedOn = some [va, vb, vc, vd, ve] ∧
      (predictDirect (some m) body).result = buildDirectResponse m [va, vb, vc, vd, ve]) := by
  obtain ⟨g1, g2, g3, g4, g5⟩ := body
  refine ⟨?_, ?_, ?_, ?_, ?_, ?_⟩
  · rintro rfl; rfl
  · rintro va rfl rfl; rfl
  · rintro va vb rfl rfl rfl; rfl
  · rintro va vb vc rfl rfl rfl rfl; rfl
  · rintro va vb vc vd rfl rfl rfl rfl rfl; rfl
  · rintro va vb vc vd ve h
    simp only [DirectBody.mk.injEq] at h
    obtain ⟨rfl, rfl, rfl, rfl, rfl⟩ := h
    exact ⟨rfl, rfl⟩

/-- Witness for `direct_field_validation`: an empty body fails naming
`temperature_2m_max`; a complete body reaches the classifier with the five
values unchanged. -/
theorem direct_field_validation_witness :
    (predictDirect (some sampleModel)
        (DirectBody.mk none none none none none)).result =
      Except.error { code := 500, message := "temperature_2m_max" } ∧
    (predictDirect (some sampleModel)
        (DirectBody.mk (some 35) (some 24) (some 10) (some 15) (some 0))).classifiedOn =
      some [35, 24, 10, 15, 0] :=
  ⟨(direct_field_validation sampleModel (DirectBody.mk none none none none none)).1 rfl,
   ((direct_field_validation sampleModel
       (DirectBody.mk (some 35) (some 24) (some 10) (some 15) (some 0))).2.2.2.2.2
     35 24 10 15 0 rfl).1⟩

/-- C9: in both modes, every successful response is cross-field
consistent: `risk` is `RISK_LABELS` applied to `risk_code`, `risk_code` is
the classifier's prediction on the classified feature vector, the three
confidence entries are the classifier's probabilities at indices 0, 1, 2,
and `recommendations` is `get_recommendations` applied to `risk`. -/
theorem response_consistency (m : MLModel) (sensor : SensorState) (body : PWSBody)
    (meteo : Option Daily) (dbody : DirectBody) :
    (∀ resp fs, (predictWithSensor (some m) sensor body meteo).result = Except.ok resp →
      (predictWithSensor (some m) sensor body meteo).classifiedOn = some fs →
      RISK_LABELS resp.risk_code = some resp.risk ∧
      resp.risk_code = m.predict fs ∧
      (m.predict_proba fs).get? 0 = some resp.confidence_low ∧
      (m.predict_proba fs).get? 1 = some resp.confidence_medium ∧
      (m.predict_proba fs).get? 2 = some resp.confidence_high ∧
      resp.recommendations = get_recommendations resp.risk) ∧
    (∀ resp fs, (predictDirect (some m) dbody).result = Except.ok resp →
      (predictDirect (some m) dbody).classifiedOn = some fs →
      RISK_LABELS resp.risk_code = some resp.risk ∧
      resp.risk_code = m.predict fs ∧
      (m.predict_proba fs).get? 0 = some resp.confidence_low ∧
      (m.predict_proba fs).get? 1 = some resp.confidence_medium ∧
      (m.predict_proba fs).get? 2 = some resp.confidence_high ∧
      resp.recommendations = get_recommendations resp.risk) := by
  constructor
  · intro resp fs h hcl
    obtain ⟨daily, a, hm, ha, hb, hcls⟩ := predictWithSensor_ok h
    rw [hcls] at hcl
    injection hcl with hcl'
    subst hcl'
    obtain ⟨-, -, -, -, -, -, g7, g8, g9, g10, g11, g12⟩ := buildSensorResponse_ok hb
    exact ⟨g7, g8, g9, g10, g11, g12⟩
  · intro resp fs h hcl
    obtain ⟨fs2, hd, hb, hcls⟩ := predictDirect_ok h
    rw [hcls] at hcl
    injection hcl with hcl'
    subst hcl'
    exact buildDirectResponse_ok hb

/-- Witness for `response_consistency`: both modes at concrete inputs. -/
theorem response_consistency_witness :
    (RISK_LABELS sensorCaseResp.risk_code = some sensorCaseResp.risk ∧
      sensorCaseResp.risk_code = sampleModel.predict [42, 24, 10, 15, 0] ∧
      (sampleModel.predict_proba [42, 24, 10, 15, 0]).get? 0 =
        some sensorCaseResp.confidence_low ∧
      (sampleModel.predict_proba [42, 24, 10, 15, 0]).get? 1 =
        some sensorCaseResp.confidence_medium ∧
      (sampleModel.predict_proba [42, 24, 10, 15, 0]).get? 2 =
        some sensorCaseResp.confidence_high ∧
      sensorCaseResp.recommendations = get_recommendations sensorCaseResp.risk) ∧
    (RISK_LABELS directCaseResp.risk_code = some directCaseResp.risk ∧
      directCaseResp.risk_code = sampleModel.predict [35, 24, 10, 15, 0] ∧
      (sampleModel.predict_proba [35, 24, 10, 15, 0]).get? 0 =
        some directCaseResp.confidence_low ∧
      (sampleModel.predict_proba [35, 24, 10, 15, 0]).get? 1 =
        some directCaseResp.confidence_medium ∧
      (sampleModel.predict_proba [35, 24, 10, 15, 0]).get? 2 =
        some directCaseResp.confidence_high ∧
      directCaseResp.recommendations = get_recommendations directCaseResp.risk) :=
  ⟨(response_consistency sampleModel staleSensor sensorBody (some sampleDaily)
      (DirectBody.mk (some 35) (some 24) (some 10) (some 15) (some 0))).1
      sensorCaseResp [42, 24, 10, 15, 0] rfl rfl,
   (response_consistency sampleModel staleSensor sensorBody (some sampleDaily)
      (DirectBody.mk (some 35) (some 24) (some 10) (some 15) (some 0))).2
      directCaseResp [35, 24, 10, 15, 0] rfl rfl⟩

end ClimaWell
